import Mathlib

/-!
# Verification of the `types` package of hyperhq/hyper-api

The repository consists of Go struct declarations with `json:"..."` (and, for
`Rule`, also `yaml:"..."`) serialization tags (src/types/types.go).  The structs
carry no methods: their wire behaviour is fully determined by the field list,
the per-field tag, and the semantics of Go's `encoding/json` package, which the
repository relies on for all encoding and decoding.

We embed each struct that the claims touch as a Lean structure (field for
field, in declaration order), and embed the `encoding/json` semantics the tags
select:

* Wire payloads are modelled as a JSON syntax tree `Json` (object member order
  is kept, so "byte-for-byte modulo key order" becomes equality of trees up to
  permutation of an object's member list).  Numbers are modelled as `Int`: no
  claim touches fractional values.
* Go maps (`map[string]T`) are modelled as association lists
  `List (String × T)`; the iteration order of a Go map is abstracted by the
  list order, and payload key order is quotiented by permutation anyway.
* Go slices/maps conflate `nil` with empty in this model (a Lean `List`);
  every claim that distinguishes presence does so through `omitempty`, for
  which Go treats `nil` and empty alike.
* `time.Time` is carried by its RFC 3339 rendering (the string
  `time.Time.MarshalJSON` produces); the zero time renders as
  `"0001-01-01T00:00:00Z"`.  Format validation on decode is not modelled; no
  claim probes an invalid timestamp.
* Encoding follows `json.Marshal`: members are emitted in struct field order,
  a field tagged `omitempty` is dropped when its value is the zero/empty value
  of its type, a field tagged `json:"-"` is never emitted, embedded (anonymous)
  structs are flattened into the outer object, and a renamed field is emitted
  under its tag name.
* Decoding follows `json.Unmarshal`: payloads that are not objects fail; an
  object's members are matched to fields by tag name (for duplicate keys the
  last binding wins, as `json.Unmarshal`'s sequential overwriting does);
  unknown keys are ignored; a missing key leaves the field at its zero value
  (Go never requires a field); `null` leaves a scalar field at its zero value
  and makes a slice/map nil; a shape mismatch (wrong JSON type for the field)
  is an error that makes the whole decode fail.

Types of the repository's sibling packages (`types/container`,
`types/network`) and of `docker/go-connections/nat` are not in src; where a
field of such a type occurs we model the value abstractly as the JSON tree it
encodes to (see `WireValue` below).
-/

/-- A JSON value.  Object member order is kept so that "the original payload
after normalizing key order" can be expressed as permutation of members. -/
inductive Json where
  | null
  | bool (b : Bool)
  | num (n : Int)
  | str (s : String)
  | arr (elems : List Json)
  | obj (members : List (String × Json))
deriving Repr, Inhabited

/-- Look a key up in an object's member list.  `json.Unmarshal` fills fields
sequentially, so with duplicate keys the LAST binding wins; we mirror that. -/
def jlookup (k : String) : List (String × Json) → Option Json
  | [] => none
  | p :: t => (jlookup k t).or (if p.1 = k then some p.2 else none)

/-- The keys of a payload, in emission order (`[]` for non-objects). -/
def jkeys : Json → List String
  | .obj l => l.map Prod.fst
  | _ => []

/-- The member list of a payload (`[]` for non-objects). -/
def jmembers : Json → List (String × Json)
  | .obj l => l
  | _ => []

/-- "The same payload after normalizing key order": both are objects and one's
member list is a permutation of the other's.  Nested values are compared on
the nose (the decoders below keep nested structures intact). -/
def KeyPerm (p q : Json) : Prop :=
  ∃ a b, p = Json.obj a ∧ q = Json.obj b ∧ a.Perm b

/-- A list's keys have no duplicates. -/
def NodupKeys (l : List (String × Json)) : Prop :=
  (l.map Prod.fst).Nodup

/-! ## Field decoders (the `json.Unmarshal` semantics of each field shape) -/

/-- Decode a JSON value into a Go `string` field: `null` is a no-op on the
zero value (Go: "unmarshalling null into a non-pointer is a no-op"). -/
def jString : Json → Option String
  | .str s => some s
  | .null => some ""
  | _ => none

/-- Decode into a Go `int`/`int64` field. -/
def jInt : Json → Option Int
  | .num n => some n
  | .null => some 0
  | _ => none

/-- Decode into a Go `bool` field. -/
def jBool : Json → Option Bool
  | .bool b => some b
  | .null => some false
  | _ => none

/-- Element-wise decoding of a list; any element failure fails the whole
(as `json.Unmarshal` reports an element's type error to its caller). -/
def optList (f : α → Option β) : List α → Option (List β)
  | [] => some []
  | a :: t =>
    match f a, optList f t with
    | some b, some bs => some (b :: bs)
    | _, _ => none

/-- Decode into a Go `[]string` field (`null` makes the slice nil ≈ `[]`). -/
def jStringList : Json → Option (List String)
  | .arr es => optList jString es
  | .null => some []
  | _ => none

/-- Decode into a Go `map[string]string` field. -/
def jStringMap : Json → Option (List (String × String))
  | .obj ms => optList (fun kv => (jString kv.2).map (fun s => (kv.1, s))) ms
  | .null => some []
  | _ => none

/-- Decode into a Go `map[string]interface{}` field: any object is accepted,
its values kept as raw JSON. -/
def jRawMap : Json → Option (List (String × Json))
  | .obj ms => some ms
  | .null => some []
  | _ => none

/-- `getF l k dec`: the value field `k` receives from member list `l` under
field decoder `dec` with zero value `z` — a missing key leaves the zero. -/
def getF (l : List (String × Json)) (k : String) (dec : Json → Option α)
    (z : α) : Option α :=
  match jlookup k l with
  | none => some z
  | some v => dec v

/-- Encode a Go `[]string` value. -/
def encStringList (ws : List String) : Json :=
  .arr (ws.map .str)

/-- Encode a Go `map[string]string` value. -/
def encStringMap (m : List (String × String)) : Json :=
  .obj (m.map (fun kv => (kv.1, .str kv.2)))

/-! ## `time.Time` (zero value renders as `"0001-01-01T00:00:00Z"`) -/

/-- `time.Time`, carried by the RFC 3339 string `MarshalJSON` renders it to. -/
structure GoTime where
  rfc3339 : String
deriving Repr, DecidableEq

/-- The zero `time.Time`, as rendered by `MarshalJSON`. -/
def GoTime.zero : GoTime := ⟨"0001-01-01T00:00:00Z"⟩

def jTime : Json → Option GoTime
  | .str s => some ⟨s⟩
  | _ => none

/-! ## ContainerCreateResponse (src/types/types.go:15-21) -/

/-- `ContainerCreateResponse`: `ID string json:"Id"`, `Warnings []string`. -/
structure ContainerCreateResponse where
  ID : String
  Warnings : List String
deriving Repr, DecidableEq

/-- The members `json.Marshal` emits for a `ContainerCreateResponse`
(struct field order; no `omitempty` here). -/
def ccrMembers (v : ContainerCreateResponse) : List (String × Json) :=
  [("Id", .str v.ID), ("Warnings", encStringList v.Warnings)]

def encodeContainerCreateResponse (v : ContainerCreateResponse) : Json :=
  .obj (ccrMembers v)

def decodeContainerCreateResponse : Json → Option ContainerCreateResponse
  | .obj l => do
    let id ← getF l "Id" jString ""
    let ws ← getF l "Warnings" jStringList []
    pure ⟨id, ws⟩
  | _ => none

/-! ## AuthResponse (src/types/types.go:39-46) -/

/-- `AuthResponse`: `Status string`, `IdentityToken string json:",omitempty"`. -/
structure AuthResponse where
  Status : String
  IdentityToken : String
deriving Repr, DecidableEq

/-- The members `json.Marshal` emits for an `AuthResponse`
(the `omitempty` `IdentityToken` is dropped when empty). -/
def authMembers (v : AuthResponse) : List (String × Json) :=
  [("Status", .str v.Status)] ++
  (if v.IdentityToken = "" then [] else [("IdentityToken", .str v.IdentityToken)])

def encodeAuthResponse (v : AuthResponse) : Json :=
  .obj (authMembers v)

def decodeAuthResponse : Json → Option AuthResponse
  | .obj l => do
    let st ← getF l "Status" jString ""
    let tok ← getF l "IdentityToken" jString ""
    pure ⟨st, tok⟩
  | _ => none

/-! ## Volume (src/types/types.go:410-419) -/

/-- `Volume`: `Name`, `Driver`, `Mountpoint string`;
`Status map[string]interface\x7b\x7d json:",omitempty"`;
`Labels map[string]string`; `Scope string`; `CreatedAt time.Time`. -/
structure Volume where
  Name : String
  Driver : String
  Mountpoint : String
  Status : List (String × Json)
  Labels : List (String × String)
  Scope : String
  CreatedAt : GoTime

/-- The members `json.Marshal` emits for a `Volume` (struct field order;
`Status` dropped when empty, per its `omitempty`). -/
def volumeMembers (v : Volume) : List (String × Json) :=
  [("Name", .str v.Name), ("Driver", .str v.Driver),
   ("Mountpoint", .str v.Mountpoint)] ++
  (if v.Status.isEmpty then [] else [("Status", .obj v.Status)]) ++
  [("Labels", encStringMap v.Labels), ("Scope", .str v.Scope),
   ("CreatedAt", .str v.CreatedAt.rfc3339)]

def encodeVolume (v : Volume) : Json :=
  .obj (volumeMembers v)

def decodeVolume : Json → Option Volume
  | .obj l => do
    let name ← getF l "Name" jString ""
    let driver ← getF l "Driver" jString ""
    let mp ← getF l "Mountpoint" jString ""
    let st ← getF l "Status" jRawMap []
    let lb ← getF l "Labels" jStringMap []
    let sc ← getF l "Scope" jString ""
    let ca ← getF l "CreatedAt" jTime GoTime.zero
    pure ⟨name, driver, mp, st, lb, sc, ca⟩
  | _ => none

/-! ## Values of packages outside src -/

/-- Modelled from the spec: the sibling packages `types/container` and
`types/network` and the vendored `go-connections/nat` (sources not in src)
supply `container.HostConfig`, `network.EndpointSettings`, `network.Address`
and `nat.PortMap`.  The spec uses them only as payload shapes, so a value of
such a type is modelled abstractly by the JSON tree it encodes to. -/
structure WireValue where
  wire : Json

/-- Encode a non-nil-able Go pointer field: `nil` encodes as `null`. -/
def encPtr (f : α → Json) : Option α → Json
  | none => .null
  | some a => f a

/-- The member an `omitempty` pointer field contributes: nothing when nil. -/
def ptrMember (k : String) (f : α → Json) : Option α → List (String × Json)
  | none => []
  | some a => [(k, f a)]

/-! ## ContainerNode (src/types/types.go:295-303) -/

/-- `ContainerNode`: note `IPAddress string json:"IP"` — the internal name
differs from the wire name. -/
structure ContainerNode where
  ID : String
  IPAddress : String
  Addr : String
  Name : String
  Cpus : Int
  Memory : Int
  Labels : List (String × String)

def encodeContainerNode (v : ContainerNode) : Json :=
  .obj [("ID", .str v.ID), ("IP", .str v.IPAddress), ("Addr", .str v.Addr),
    ("Name", .str v.Name), ("Cpus", .num v.Cpus), ("Memory", .num v.Memory),
    ("Labels", encStringMap v.Labels)]

def decodeContainerNode : Json → Option ContainerNode
  | .obj l => do
    let id ← getF l "ID" jString ""
    let ip ← getF l "IP" jString ""
    let addr ← getF l "Addr" jString ""
    let name ← getF l "Name" jString ""
    let cpus ← getF l "Cpus" jInt 0
    let mem ← getF l "Memory" jInt 0
    let lb ← getF l "Labels" jStringMap []
    pure ⟨id, ip, addr, name, cpus, mem, lb⟩
  | _ => none

/-! ## NetworkSettings (src/types/types.go:341-378) -/

/-- `NetworkSettingsBase` (src/types/types.go:358-368).  `Ports` is a
`nat.PortMap` and the secondary address lists are `[]network.Address`,
both from packages outside src (see `WireValue`). -/
structure NetworkSettingsBase where
  Bridge : String
  SandboxID : String
  HairpinMode : Bool
  LinkLocalIPv6Address : String
  LinkLocalIPv6PrefixLen : Int
  Ports : WireValue
  SandboxKey : String
  SecondaryIPAddresses : WireValue
  SecondaryIPv6Addresses : WireValue

/-- The members `NetworkSettingsBase` contributes (embedded structs are
flattened into the outer object by `json.Marshal`; no tags, no omissions). -/
def nsBaseMembers (b : NetworkSettingsBase) : List (String × Json) :=
  [("Bridge", .str b.Bridge), ("SandboxID", .str b.SandboxID),
   ("HairpinMode", .bool b.HairpinMode),
   ("LinkLocalIPv6Address", .str b.LinkLocalIPv6Address),
   ("LinkLocalIPv6PrefixLen", .num b.LinkLocalIPv6PrefixLen),
   ("Ports", b.Ports.wire), ("SandboxKey", .str b.SandboxKey),
   ("SecondaryIPAddresses", b.SecondaryIPAddresses.wire),
   ("SecondaryIPv6Addresses", b.SecondaryIPv6Addresses.wire)]

/-- `DefaultNetworkSettings` (src/types/types.go:369-378): the legacy
top-level network fields kept "during the 2 release deprecation period". -/
structure DefaultNetworkSettings where
  EndpointID : String
  Gateway : String
  GlobalIPv6Address : String
  GlobalIPv6PrefixLen : Int
  IPAddress : String
  IPPrefixLen : Int
  IPv6Gateway : String
  MacAddress : String

/-- The members `DefaultNetworkSettings` contributes (flattened likewise). -/
def dfltNSMembers (d : DefaultNetworkSettings) : List (String × Json) :=
  [("EndpointID", .str d.EndpointID), ("Gateway", .str d.Gateway),
   ("GlobalIPv6Address", .str d.GlobalIPv6Address),
   ("GlobalIPv6PrefixLen", .num d.GlobalIPv6PrefixLen),
   ("IPAddress", .str d.IPAddress), ("IPPrefixLen", .num d.IPPrefixLen),
   ("IPv6Gateway", .str d.IPv6Gateway), ("MacAddress", .str d.MacAddress)]

/-- `NetworkSettings` (src/types/types.go:341-345): embeds
`NetworkSettingsBase` and `DefaultNetworkSettings`, plus
`Networks map[string]*network.EndpointSettings`. -/
structure NetworkSettings where
  base : NetworkSettingsBase
  dflt : DefaultNetworkSettings
  Networks : List (String × WireValue)

/-- `json.Marshal` flattens the two embedded structs into the top level and
then emits `Networks`; nothing is tagged `omitempty` here. -/
def encodeNetworkSettings (ns : NetworkSettings) : Json :=
  .obj (nsBaseMembers ns.base ++ dfltNSMembers ns.dflt ++
    [("Networks", .obj (ns.Networks.map (fun kv => (kv.1, kv.2.wire))))])

/-! ## Rule and SecurityGroup (src/types/types.go:520-561) -/

/-- `Rule`: every field carries paired `json:"..." yaml:"..."` tags, except
`EtherType`, whose tags are `json:"-" yaml:",omitempty"`. -/
structure Rule where
  Direction : String
  EtherType : String
  PortRangeMin : Int
  PortRangeMax : Int
  Protocol : String
  RemoteIPPrefix : String
  RemoteGroupName : String

/-- JSON encoding of a `Rule`: `json:"-"` excludes `EtherType` entirely. -/
def encodeRuleJson : Rule → Json
  | ⟨dir, _eth, pmin, pmax, proto, rip, rgn⟩ =>
    .obj [("direction", .str dir), ("port_range_min", .num pmin),
      ("port_range_max", .num pmax), ("protocol", .str proto),
      ("remote_ip_prefix", .str rip), ("remote_group_name", .str rgn)]

/-- JSON decoding of a `Rule`: `EtherType` is never read from the payload
(`json:"-"`), so it always stays at its zero value. -/
def decodeRuleJson : Json → Option Rule
  | .obj l => do
    let dir ← getF l "direction" jString ""
    let pmin ← getF l "port_range_min" jInt 0
    let pmax ← getF l "port_range_max" jInt 0
    let proto ← getF l "protocol" jString ""
    let rip ← getF l "remote_ip_prefix" jString ""
    let rgn ← getF l "remote_group_name" jString ""
    pure ⟨dir, "", pmin, pmax, proto, rip, rgn⟩
  | _ => none

/-- YAML (structured-config) encoding of a `Rule`, as a structured tree:
here `EtherType` IS carried, under the default lowercased key and with
`omitempty` (tag `yaml:",omitempty"`). -/
def encodeRuleYaml : Rule → Json
  | ⟨dir, eth, pmin, pmax, proto, rip, rgn⟩ =>
    .obj ([("direction", .str dir)] ++
      (if eth = "" then [] else [("ethertype", .str eth)]) ++
      [("port_range_min", .num pmin), ("port_range_max", .num pmax),
       ("protocol", .str proto), ("remote_ip_prefix", .str rip),
       ("remote_group_name", .str rgn)])

/-- Decode into a Go `[]Rule` field. -/
def jRuleList : Json → Option (List Rule)
  | .arr es => optList decodeRuleJson es
  | .null => some []
  | _ => none

/-- `SecurityGroup` (src/types/types.go:556-561): lower-case wire names
`name`, `description`, `rules`. -/
structure SecurityGroup where
  GroupName : String
  Description : String
  Rules : List Rule

def encodeSecurityGroup (g : SecurityGroup) : Json :=
  .obj [("name", .str g.GroupName), ("description", .str g.Description),
    ("rules", .arr (g.Rules.map encodeRuleJson))]

def decodeSecurityGroup : Json → Option SecurityGroup
  | .obj l => do
    let gn ← getF l "name" jString ""
    let desc ← getF l "description" jString ""
    let rules ← getF l "rules" jRuleList []
    pure ⟨gn, desc, rules⟩
  | _ => none

/-! ## ContainerJSONBase and its parts (src/types/types.go:276-330) -/

/-- `ContainerState` (src/types/types.go:277-289): untagged plain fields. -/
structure ContainerState where
  Status : String
  Running : Bool
  Paused : Bool
  Restarting : Bool
  OOMKilled : Bool
  Dead : Bool
  Pid : Int
  ExitCode : Int
  Error : String
  StartedAt : String
  FinishedAt : String

def encodeContainerState (s : ContainerState) : Json :=
  .obj [("Status", .str s.Status), ("Running", .bool s.Running),
    ("Paused", .bool s.Paused), ("Restarting", .bool s.Restarting),
    ("OOMKilled", .bool s.OOMKilled), ("Dead", .bool s.Dead),
    ("Pid", .num s.Pid), ("ExitCode", .num s.ExitCode),
    ("Error", .str s.Error), ("StartedAt", .str s.StartedAt),
    ("FinishedAt", .str s.FinishedAt)]

/-- `GraphDriverData` (src/types/types.go:98-102). -/
structure GraphDriverData where
  Name : String
  Data : List (String × String)

def encodeGraphDriverData (g : GraphDriverData) : Json :=
  .obj [("Name", .str g.Name), ("Data", encStringMap g.Data)]

/-- `ContainerJSONBase` (src/types/types.go:307-330).  The pointer fields
`SizeRw`, `SizeRootFs` (`*int64 json:",omitempty"`) become `Option Int`:
`none` is a nil pointer (key omitted), `some 0` a pointer to zero (key kept).
`Node` is `*ContainerNode json:",omitempty"`; `State` and `HostConfig` are
pointers without `omitempty` (nil encodes as `null`). -/
structure ContainerJSONBase where
  ID : String
  Created : String
  Path : String
  Args : List String
  State : Option ContainerState
  Image : String
  ResolvConfPath : String
  HostnamePath : String
  HostsPath : String
  LogPath : String
  Node : Option ContainerNode
  Name : String
  RestartCount : Int
  Driver : String
  MountLabel : String
  ProcessLabel : String
  AppArmorProfile : String
  ExecIDs : List String
  HostConfig : Option WireValue
  GraphDriver : GraphDriverData
  SizeRw : Option Int
  SizeRootFs : Option Int

def encodeContainerJSONBase (b : ContainerJSONBase) : Json :=
  .obj ([("Id", .str b.ID), ("Created", .str b.Created), ("Path", .str b.Path),
    ("Args", encStringList b.Args),
    ("State", encPtr encodeContainerState b.State),
    ("Image", .str b.Image), ("ResolvConfPath", .str b.ResolvConfPath),
    ("HostnamePath", .str b.HostnamePath), ("HostsPath", .str b.HostsPath),
    ("LogPath", .str b.LogPath)] ++
    ptrMember "Node" encodeContainerNode b.Node ++
    [("Name", .str b.Name), ("RestartCount", .num b.RestartCount),
     ("Driver", .str b.Driver), ("MountLabel", .str b.MountLabel),
     ("ProcessLabel", .str b.ProcessLabel),
     ("AppArmorProfile", .str b.AppArmorProfile),
     ("ExecIDs", encStringList b.ExecIDs),
     ("HostConfig", encPtr WireValue.wire b.HostConfig),
     ("GraphDriver", encodeGraphDriverData b.GraphDriver)] ++
    ptrMember "SizeRw" Json.num b.SizeRw ++
    ptrMember "SizeRootFs" Json.num b.SizeRootFs)

/-! ## Container and its parts (src/types/types.go:135-164, 400-409) -/

/-- `Port` (src/types/types.go:135-142): `IP` and `PublicPort` are
`omitempty` plain values.  Its Go field `Type` is a Lean keyword, hence
the primed field name; the wire key stays `"Type"`. -/
structure Port where
  IP : String
  PrivatePort : Int
  PublicPort : Int
  Type' : String

def encodePort (p : Port) : Json :=
  .obj ((if p.IP = "" then [] else [("IP", .str p.IP)]) ++
    [("PrivatePort", .num p.PrivatePort)] ++
    (if p.PublicPort = 0 then [] else [("PublicPort", .num p.PublicPort)]) ++
    [("Type", .str p.Type')])

/-- `MountPoint` (src/types/types.go:400-409). -/
structure MountPoint where
  Name : String
  Source : String
  Destination : String
  Driver : String
  Mode : String
  RW : Bool
  Propagation : String

def encodeMountPoint (m : MountPoint) : Json :=
  .obj ((if m.Name = "" then [] else [("Name", .str m.Name)]) ++
    [("Source", .str m.Source), ("Destination", .str m.Destination)] ++
    (if m.Driver = "" then [] else [("Driver", .str m.Driver)]) ++
    [("Mode", .str m.Mode), ("RW", .bool m.RW),
     ("Propagation", .str m.Propagation)])

/-- `SummaryNetworkSettings` (src/types/types.go:347-351). -/
structure SummaryNetworkSettings where
  Networks : List (String × WireValue)

def encodeSummaryNetworkSettings (s : SummaryNetworkSettings) : Json :=
  .obj [("Networks", .obj (s.Networks.map (fun kv => (kv.1, kv.2.wire))))]

/-- The anonymous `HostConfig struct` inside `Container`
(src/types/types.go:158-160): one `omitempty` field `NetworkMode`. -/
structure ContainerHostConfig where
  NetworkMode : String

def encodeContainerHostConfig (h : ContainerHostConfig) : Json :=
  .obj (if h.NetworkMode = "" then [] else [("NetworkMode", .str h.NetworkMode)])

/-- `Container` (src/types/types.go:146-164), the list-containers summary:
here `SizeRw`, `SizeRootFs` are PLAIN `int64 json:",omitempty"` — no pointer,
so "present with value 0" is indistinguishable from absent. -/
structure Container where
  ID : String
  Names : List String
  Image : String
  ImageID : String
  Command : String
  Created : Int
  Ports : List Port
  SizeRw : Int
  SizeRootFs : Int
  Labels : List (String × String)
  State : String
  Status : String
  HostConfig : ContainerHostConfig
  NetworkSettings : Option SummaryNetworkSettings
  Mounts : List MountPoint

def encodeContainer (c : Container) : Json :=
  .obj ([("Id", .str c.ID), ("Names", encStringList c.Names),
    ("Image", .str c.Image), ("ImageID", .str c.ImageID),
    ("Command", .str c.Command), ("Created", .num c.Created),
    ("Ports", .arr (c.Ports.map encodePort))] ++
    (if c.SizeRw = 0 then [] else [("SizeRw", .num c.SizeRw)]) ++
    (if c.SizeRootFs = 0 then [] else [("SizeRootFs", .num c.SizeRootFs)]) ++
    [("Labels", encStringMap c.Labels), ("State", .str c.State),
     ("Status", .str c.Status),
     ("HostConfig", encodeContainerHostConfig c.HostConfig),
     ("NetworkSettings", encPtr encodeSummaryNetworkSettings c.NetworkSettings),
     ("Mounts", .arr (c.Mounts.map encodeMountPoint))])

/-! ## Key order is immaterial to decoding (when the payload has no
duplicate keys) — the backbone of the round-trip law -/

theorem jlookup_perm {l₁ l₂ : List (String × Json)} (h : l₁.Perm l₂) :
    NodupKeys l₁ → ∀ k, jlookup k l₁ = jlookup k l₂ := by
  induction h with
  | nil => exact fun _ _ => rfl
  | cons x h ih =>
    intro hn k
    simp only [NodupKeys, List.map_cons, List.nodup_cons] at hn
    simp [jlookup, ih hn.2 k]
  | swap a b l =>
    intro hn k
    simp only [NodupKeys, List.map_cons, List.nodup_cons, List.mem_cons] at hn
    have hab : b.1 ≠ a.1 := fun e => hn.1 (Or.inl e)
    simp only [jlookup, Option.or_assoc]
    congr 1
    by_cases ha : a.1 = k <;> by_cases hb : b.1 = k
    · exact absurd (hb.trans ha.symm) hab
    · simp [ha, hb]
    · simp [ha, hb]
    · simp [ha, hb]
  | trans h₁ h₂ ih₁ ih₂ =>
    intro hn k
    have hn₂ : NodupKeys _ := (h₁.map Prod.fst).nodup hn
    rw [ih₁ hn k, ih₂ hn₂ k]

/-- A list permuted from one with distinct keys has distinct keys. -/
theorem nodupKeys_of_perm {l c : List (String × Json)} (h : l.Perm c)
    (hc : NodupKeys c) : NodupKeys l :=
  ((h.map Prod.fst).symm).nodup hc

theorem optList_map_eq {f : β → Option γ} {g : α → β} {h : α → γ}
    (hf : ∀ a, f (g a) = some (h a)) :
    ∀ l : List α, optList f (l.map g) = some (l.map h)
  | [] => rfl
  | a :: t => by simp [optList, hf a, optList_map_eq hf t]

theorem optList_jString_map (ws : List String) :
    optList jString (ws.map Json.str) = some ws := by
  simpa using optList_map_eq (h := id) (g := Json.str)
    (f := jString) (fun a => by simp [jString]) ws

theorem jStringMap_enc (m : List (String × String)) :
    jStringMap (encStringMap m) = some m := by
  have := optList_map_eq (h := id)
    (f := fun kv => (jString kv.2).map (fun s => (kv.1, s)))
    (g := fun kv => (kv.1, Json.str kv.2)) (fun a => by simp [jString]) m
  simpa [jStringMap, encStringMap] using this

theorem decodeCCR_congr {l₁ l₂ : List (String × Json)} (h : l₁.Perm l₂)
    (hn : NodupKeys l₁) :
    decodeContainerCreateResponse (.obj l₁) =
    decodeContainerCreateResponse (.obj l₂) := by
  simp only [decodeContainerCreateResponse, getF, jlookup_perm h hn]

theorem decodeCCR_canonical (v : ContainerCreateResponse) :
    decodeContainerCreateResponse (.obj (ccrMembers v)) = some v := by
  simp [decodeContainerCreateResponse, ccrMembers, encStringList, getF,
    jlookup, jString, jStringList, optList_jString_map]

theorem nodupKeys_ccrMembers (v : ContainerCreateResponse) :
    NodupKeys (ccrMembers v) := by
  simp [ccrMembers, NodupKeys]

theorem decodeAuth_congr {l₁ l₂ : List (String × Json)} (h : l₁.Perm l₂)
    (hn : NodupKeys l₁) :
    decodeAuthResponse (.obj l₁) = decodeAuthResponse (.obj l₂) := by
  simp only [decodeAuthResponse, getF, jlookup_perm h hn]

theorem decodeAuth_canonical (v : AuthResponse) :
    decodeAuthResponse (.obj (authMembers v)) = some v := by
  obtain ⟨s, t⟩ := v
  by_cases ht : t = "" <;>
    simp [decodeAuthResponse, authMembers, getF, jlookup, jString, ht]

theorem nodupKeys_authMembers (v : AuthResponse) : NodupKeys (authMembers v) := by
  by_cases ht : v.IdentityToken = "" <;>
    simp [authMembers, NodupKeys, ht]

theorem decodeVolume_congr {l₁ l₂ : List (String × Json)} (h : l₁.Perm l₂)
    (hn : NodupKeys l₁) :
    decodeVolume (.obj l₁) = decodeVolume (.obj l₂) := by
  simp only [decodeVolume, getF, jlookup_perm h hn]

theorem decodeVolume_canonical (v : Volume) :
    decodeVolume (.obj (volumeMembers v)) = some v := by
  obtain ⟨n, d, mp, st, lb, sc, ca⟩ := v
  cases st <;>
    simp [decodeVolume, volumeMembers, getF, jlookup, jString, jRawMap,
      jStringMap_enc, jTime, List.isEmpty]

theorem nodupKeys_volumeMembers (v : Volume) : NodupKeys (volumeMembers v) := by
  cases hs : v.Status <;>
    simp [volumeMembers, NodupKeys, hs, List.isEmpty]


/-! ## The claims -/

/-- C1: for every type (here the declared payload types cited by the spec:
`ContainerCreateResponse`, `AuthResponse`, `Volume`) and every well-formed
wire payload for that type — any key order of the members a value of the type
puts on the wire, omit-if-empty fields present exactly when non-empty —
decoding the payload and then re-encoding the decoded value yields the
original payload byte-for-byte after normalizing key order. -/
theorem decode_encode_round_trip :
    (∀ (l : List (String × Json)) (w : ContainerCreateResponse),
      l.Perm (ccrMembers w) →
      ∃ v, decodeContainerCreateResponse (Json.obj l) = some v ∧
        KeyPerm (encodeContainerCreateResponse v) (Json.obj l)) ∧
    (∀ (l : List (String × Json)) (w : AuthResponse),
      l.Perm (authMembers w) →
      ∃ v, decodeAuthResponse (Json.obj l) = some v ∧
        KeyPerm (encodeAuthResponse v) (Json.obj l)) ∧
    (∀ (l : List (String × Json)) (w : Volume),
      l.Perm (volumeMembers w) →
      ∃ v, decodeVolume (Json.obj l) = some v ∧
        KeyPerm (encodeVolume v) (Json.obj l)) := by
  refine ⟨fun l w h => ?_, fun l w h => ?_, fun l w h => ?_⟩
  · have hn : NodupKeys l := nodupKeys_of_perm h (nodupKeys_ccrMembers w)
    exact ⟨w, by rw [decodeCCR_congr h hn]; exact decodeCCR_canonical w,
      ccrMembers w, l, rfl, rfl, h.symm⟩
  · have hn : NodupKeys l := nodupKeys_of_perm h (nodupKeys_authMembers w)
    exact ⟨w, by rw [decodeAuth_congr h hn]; exact decodeAuth_canonical w,
      authMembers w, l, rfl, rfl, h.symm⟩
  · have hn : NodupKeys l := nodupKeys_of_perm h (nodupKeys_volumeMembers w)
    exact ⟨w, by rw [decodeVolume_congr h hn]; exact decodeVolume_canonical w,
      volumeMembers w, l, rfl, rfl, h.symm⟩

/-- Witness for C1 at a concrete payload whose keys are NOT in encoder
order: `{"Warnings":["w"],"Id":"abc"}` decodes, and re-encodes to a key
permutation of the original. -/
theorem decode_encode_round_trip_witness :
    ∃ v, decodeContainerCreateResponse
        (Json.obj [("Warnings", Json.arr [Json.str "w"]),
          ("Id", Json.str "abc")]) = some v ∧
      KeyPerm (encodeContainerCreateResponse v)
        (Json.obj [("Warnings", Json.arr [Json.str "w"]),
          ("Id", Json.str "abc")]) :=
  decode_encode_round_trip.1 _ ⟨"abc", ["w"]⟩ (List.Perm.swap _ _ _)

/-- C2 counterexample: the claim says a payload missing a required field
fails with a decoding error.  But decoding `{"Id":"abc"}` into
`ContainerCreateResponse` — a payload with no `"Warnings"` member at all —
succeeds, silently defaulting `Warnings` to its zero value. -/
theorem missing_field_decodes_counterexample :
    jlookup "Warnings" [("Id", Json.str "abc")] = none ∧
    decodeContainerCreateResponse (Json.obj [("Id", Json.str "abc")]) =
      some ⟨"abc", []⟩ :=
  ⟨rfl, rfl⟩

/-- C2 as amended: a malformed wire payload fails with a decoding error when
it is not an object, or when a present field mismatches its type, or when a
nested structure is malformed; a MISSING field, however, never fails — it is
silently defaulted to the field's zero value. -/
theorem malformed_payload_fails :
    (∀ (n : Int), decodeContainerCreateResponse (Json.num n) = none) ∧
    (∀ (l : List (String × Json)) (v : Json), jlookup "Id" l = some v →
      jString v = none → decodeContainerCreateResponse (Json.obj l) = none) ∧
    (∀ (l : List (String × Json)) (v : Json), jlookup "Warnings" l = some v →
      jStringList v = none →
      decodeContainerCreateResponse (Json.obj l) = none) ∧
    (∀ (l : List (String × Json)) (v : Json), jlookup "Name" l = some v →
      jString v = none → decodeVolume (Json.obj l) = none) ∧
    (∀ (l : List (String × Json)) (v : ContainerCreateResponse),
      jlookup "Warnings" l = none →
      decodeContainerCreateResponse (Json.obj l) = some v →
      v.Warnings = []) := by
  refine ⟨fun n => rfl, fun l v h1 h2 => ?_, fun l v h1 h2 => ?_,
    fun l v h1 h2 => ?_, fun l v h1 h2 => ?_⟩
  · simp [decodeContainerCreateResponse, getF, h1, h2]
  · cases h : getF l "Id" jString "" <;>
      simp [decodeContainerCreateResponse, getF, h1, h2, h]
  · simp only [decodeVolume, getF, h1, h2]
    rfl
  · obtain ⟨vid, vw⟩ := v
    have hw : getF l "Warnings" jStringList ([] : List String) = some [] := by
      simp [getF, h1]
    simp only [decodeContainerCreateResponse, hw] at h2
    cases h : getF l "Id" jString "" <;> rw [h] at h2 <;> simp_all

/-- Witness for the amended C2: `{"Id":3}` — a number where the string `Id`
belongs — fails to decode. -/
theorem malformed_payload_fails_witness :
    decodeContainerCreateResponse (Json.obj [("Id", Json.num 3)]) = none :=
  malformed_payload_fails.2.1 [("Id", Json.num 3)] (Json.num 3) rfl rfl

/-- C3: for fields whose internal identifier differs from the wire identifier
(`ID` ↔ `"Id"` on `ContainerCreateResponse`, `IPAddress` ↔ `"IP"` on
`ContainerNode`), encoding emits the wire name and never the internal name,
and decoding a payload that uses the wire name populates the internal
field. -/
theorem renamed_fields_remap :
    (∀ v : ContainerCreateResponse,
      jlookup "Id" (jmembers (encodeContainerCreateResponse v)) =
        some (Json.str v.ID) ∧
      "ID" ∉ jkeys (encodeContainerCreateResponse v)) ∧
    (∀ s : String,
      decodeContainerCreateResponse
        (Json.obj [("Id", Json.str s), ("Warnings", Json.arr [])]) =
      some ⟨s, []⟩) ∧
    (∀ v : ContainerNode,
      jlookup "IP" (jmembers (encodeContainerNode v)) =
        some (Json.str v.IPAddress) ∧
      "IPAddress" ∉ jkeys (encodeContainerNode v)) ∧
    (∀ s : String,
      decodeContainerNode (Json.obj [("IP", Json.str s)]) =
      some ⟨"", s, "", "", 0, 0, []⟩) := by
  refine ⟨fun v => ⟨rfl, ?_⟩, fun s => rfl, fun v => ⟨rfl, ?_⟩, fun s => rfl⟩
  · show "ID" ∉ ["Id", "Warnings"]
    decide
  · show "IPAddress" ∉ ["ID", "IP", "Addr", "Name", "Cpus", "Memory", "Labels"]
    decide

/-- C4: an omit-if-empty field's key is absent exactly when the field holds
its zero/empty value, and carries the field's value when present
(`AuthResponse.IdentityToken` and `Volume.Status`, the cited fields). -/
theorem omitempty_key_presence :
    (∀ a : AuthResponse,
      ("IdentityToken" ∈ jkeys (encodeAuthResponse a) ↔
        a.IdentityToken ≠ "") ∧
      jlookup "IdentityToken" (jmembers (encodeAuthResponse a)) =
        (if a.IdentityToken = "" then none
         else some (Json.str a.IdentityToken))) ∧
    (∀ v : Volume,
      ("Status" ∈ jkeys (encodeVolume v) ↔ v.Status ≠ []) ∧
      jlookup "Status" (jmembers (encodeVolume v)) =
        (if v.Status.isEmpty then none else some (Json.obj v.Status))) := by
  constructor
  · intro a
    by_cases ht : a.IdentityToken = "" <;>
      simp [encodeAuthResponse, authMembers, jkeys, jmembers, jlookup, ht]
  · intro v
    obtain ⟨n, d, mp, st, lb, sc, ca⟩ := v
    cases st <;>
      simp [encodeVolume, volumeMembers, jkeys, jmembers, jlookup,
        List.isEmpty]

/-- C5: one and the same `NetworkSettings` payload carries BOTH the legacy
top-level network fields (the flattened `DefaultNetworkSettings` members:
`EndpointID`, `Gateway`, `IPAddress`, `MacAddress`, and the rest) and the
newer `Networks` map; neither shape replaces the other. -/
theorem network_settings_both_shapes (ns : NetworkSettings) :
    jkeys (encodeNetworkSettings ns) =
      ["Bridge", "SandboxID", "HairpinMode", "LinkLocalIPv6Address",
       "LinkLocalIPv6PrefixLen", "Ports", "SandboxKey",
       "SecondaryIPAddresses", "SecondaryIPv6Addresses", "EndpointID",
       "Gateway", "GlobalIPv6Address", "GlobalIPv6PrefixLen", "IPAddress",
       "IPPrefixLen", "IPv6Gateway", "MacAddress", "Networks"] ∧
    jlookup "EndpointID" (jmembers (encodeNetworkSettings ns)) =
      some (Json.str ns.dflt.EndpointID) ∧
    jlookup "Gateway" (jmembers (encodeNetworkSettings ns)) =
      some (Json.str ns.dflt.Gateway) ∧
    jlookup "IPAddress" (jmembers (encodeNetworkSettings ns)) =
      some (Json.str ns.dflt.IPAddress) ∧
    jlookup "MacAddress" (jmembers (encodeNetworkSettings ns)) =
      some (Json.str ns.dflt.MacAddress) ∧
    jlookup "Networks" (jmembers (encodeNetworkSettings ns)) =
      some (Json.obj (ns.Networks.map (fun kv => (kv.1, kv.2.wire)))) :=
  ⟨rfl, rfl, rfl, rfl, rfl, rfl⟩

/-- C6: encoding `ContainerCreateResponse` with `ID = "abc123"` and empty
`Warnings` yields exactly `{"Id":"abc123","Warnings":[]}` — the non-optional
empty list stays present as an empty array (not omitted, not null). -/
theorem ccr_empty_warnings_present :
    encodeContainerCreateResponse ⟨"abc123", []⟩ =
    Json.obj [("Id", Json.str "abc123"), ("Warnings", Json.arr [])] := rfl

/-- C7: encoding a `Volume` with zero `CreatedAt` and empty `Status` omits
the `"Status"` key but keeps `Name`, `Driver`, `Mountpoint` and `Scope`. -/
theorem volume_empty_status_omitted :
    jkeys (encodeVolume
        ⟨"vol1", "hyper", "/data", [], [], "global", GoTime.zero⟩) =
      ["Name", "Driver", "Mountpoint", "Labels", "Scope", "CreatedAt"] ∧
    "Status" ∉ jkeys (encodeVolume
        ⟨"vol1", "hyper", "/data", [], [], "global", GoTime.zero⟩) ∧
    "Name" ∈ jkeys (encodeVolume
        ⟨"vol1", "hyper", "/data", [], [], "global", GoTime.zero⟩) ∧
    "Driver" ∈ jkeys (encodeVolume
        ⟨"vol1", "hyper", "/data", [], [], "global", GoTime.zero⟩) ∧
    "Mountpoint" ∈ jkeys (encodeVolume
        ⟨"vol1", "hyper", "/data", [], [], "global", GoTime.zero⟩) ∧
    "Scope" ∈ jkeys (encodeVolume
        ⟨"vol1", "hyper", "/data", [], [], "global", GoTime.zero⟩) := by
  refine ⟨rfl, ?_, ?_, ?_, ?_, ?_⟩ <;> decide

/-- C8: decoding `{"name":"web","description":"","rules":[]}` into
`SecurityGroup` succeeds — empty string and empty array are well-formed
values, not decode failures — yielding `GroupName = "web"`, empty
`Description` and no `Rules`. -/
theorem security_group_empty_decodes :
    decodeSecurityGroup (Json.obj [("name", Json.str "web"),
      ("description", Json.str ""), ("rules", Json.arr [])]) =
    some ⟨"web", "", []⟩ := rfl

/-- C9: `Rule.EtherType` (`json:"-" yaml:",omitempty"`) is excluded from the
JSON encoding in both directions — JSON encoding never emits it under any
key, and JSON decoding leaves it at its zero value whatever the payload
holds — while the structured-config (YAML) encoding carries it, omitted
exactly when empty. -/
theorem rule_ethertype_json_excluded :
    (∀ r : Rule, jkeys (encodeRuleJson r) =
      ["direction", "port_range_min", "port_range_max", "protocol",
       "remote_ip_prefix", "remote_group_name"]) ∧
    (∀ (l : List (String × Json)) (r : Rule),
      decodeRuleJson (Json.obj l) = some r → r.EtherType = "") ∧
    (∀ r : Rule, ("ethertype" ∈ jkeys (encodeRuleYaml r) ↔ r.EtherType ≠ "")) ∧
    (∀ r : Rule, jlookup "ethertype" (jmembers (encodeRuleYaml r)) =
      (if r.EtherType = "" then none else some (Json.str r.EtherType))) := by
  refine ⟨fun r => ?_, fun l r h => ?_, fun r => ?_, fun r => ?_⟩
  · obtain ⟨_, _, _, _, _, _, _⟩ := r
    rfl
  · simp only [decodeRuleJson, Option.bind_eq_bind, Option.bind_eq_some,
      Option.pure_def, Option.some.injEq] at h
    obtain ⟨d1, _, d2, _, d3, _, d4, _, d5, _, d6, _, hr⟩ := h
    rw [← hr]
  · obtain ⟨dir, eth, pmin, pmax, proto, rip, rgn⟩ := r
    by_cases he : eth = "" <;> simp [encodeRuleYaml, jkeys, he]
  · obtain ⟨dir, eth, pmin, pmax, proto, rip, rgn⟩ := r
    by_cases he : eth = "" <;> simp [encodeRuleYaml, jmembers, jlookup, he]

/-- Witness for C9: a JSON payload that DOES carry an `"EtherType"` key
decodes with the field left empty. -/
theorem rule_ethertype_json_excluded_witness :
    decodeRuleJson (Json.obj [("EtherType", Json.str "IPv4")]) =
      some ⟨"", "", 0, 0, "", "", ""⟩ ∧
    Rule.EtherType ⟨"", "", 0, 0, "", "", ""⟩ = "" :=
  ⟨rfl, rule_ethertype_json_excluded.2.1 [("EtherType", Json.str "IPv4")]
    ⟨"", "", 0, 0, "", "", ""⟩ rfl⟩

/-- C10: in `ContainerJSONBase` the `omitempty` sizes are nullable pointers,
so the wire distinguishes absent (`none` → no key) from present-with-zero
(`some 0` → key carrying `0`); in the summary type `Container` the same-named
fields are plain integers with `omitempty`, so a zero value always drops the
key — present-with-zero is unrepresentable there. -/
theorem size_fields_pointer_vs_plain :
    (∀ b : ContainerJSONBase,
      jlookup "SizeRw" (jmembers (encodeContainerJSONBase b)) =
        b.SizeRw.map Json.num ∧
      jlookup "SizeRootFs" (jmembers (encodeContainerJSONBase b)) =
        b.SizeRootFs.map Json.num) ∧
    (∀ c : Container,
      jlookup "SizeRw" (jmembers (encodeContainer c)) =
        (if c.SizeRw = 0 then none else some (Json.num c.SizeRw)) ∧
      jlookup "SizeRootFs" (jmembers (encodeContainer c)) =
        (if c.SizeRootFs = 0 then none else some (Json.num c.SizeRootFs))) := by
  constructor
  · intro b
    obtain ⟨i, cr, pa, ar, st, im, rcp, hnp, hsp, lp, nd, nm, rcnt, dr, ml,
      pl, aap, ei, hc, gd, srw, srfs⟩ := b
    cases nd <;> cases srw <;> cases srfs <;> exact ⟨rfl, rfl⟩
  · intro c
    obtain ⟨i, nms, im, iid, cmd, cr, pts, srw, srfs, lb, st, stt, hc, nsx,
      mts⟩ := c
    by_cases h1 : srw = 0 <;> by_cases h2 : srfs = 0 <;>
      simp [encodeContainer, jmembers, jlookup, h1, h2]

/-- Witness for C3 at concrete payloads: the wire names `"Id"` and `"IP"`
populate the internal fields `ID` and `IPAddress`. -/
theorem renamed_fields_remap_witness :
    decodeContainerCreateResponse
        (Json.obj [("Id", Json.str "abc"), ("Warnings", Json.arr [])]) =
      some ⟨"abc", []⟩ ∧
    decodeContainerNode (Json.obj [("IP", Json.str "10.0.0.7")]) =
      some ⟨"", "10.0.0.7", "", "", 0, 0, []⟩ :=
  ⟨renamed_fields_remap.2.1 "abc", renamed_fields_remap.2.2.2 "10.0.0.7"⟩

/-- Witness for C4 at concrete values: empty `IdentityToken` leaves the key
out; a non-empty `Status` map keeps its key. -/
theorem omitempty_key_presence_witness :
    jlookup "IdentityToken" (jmembers (encodeAuthResponse ⟨"ok", ""⟩)) =
      (if ("" : String) = "" then none else some (Json.str "")) ∧
    ("Status" ∈ jkeys (encodeVolume ⟨"v", "d", "m",
        [("healthy", Json.bool true)], [], "local", GoTime.zero⟩) ↔
      ([("healthy", Json.bool true)] : List (String × Json)) ≠ []) :=
  ⟨(omitempty_key_presence.1 ⟨"ok", ""⟩).2,
   (omitempty_key_presence.2
     ⟨"v", "d", "m", [("healthy", Json.bool true)], [], "local",
      GoTime.zero⟩).1⟩

/-- Witness for C5 at a concrete `NetworkSettings` value: the legacy
top-level `EndpointID` and the new `Networks` map sit in one payload. -/
theorem network_settings_both_shapes_witness :
    jlookup "EndpointID" (jmembers (encodeNetworkSettings
      ⟨⟨"docker0", "sb", false, "", 0, ⟨Json.null⟩, "", ⟨Json.null⟩,
        ⟨Json.null⟩⟩,
       ⟨"ep1", "172.17.0.1", "", 0, "172.17.0.2", 16, "",
        "02:42:ac:11:00:02"⟩,
       [("bridge", ⟨Json.null⟩)]⟩)) = some (Json.str "ep1") ∧
    jlookup "Networks" (jmembers (encodeNetworkSettings
      ⟨⟨"docker0", "sb", false, "", 0, ⟨Json.null⟩, "", ⟨Json.null⟩,
        ⟨Json.null⟩⟩,
       ⟨"ep1", "172.17.0.1", "", 0, "172.17.0.2", 16, "",
        "02:42:ac:11:00:02"⟩,
       [("bridge", ⟨Json.null⟩)]⟩)) =
      some (Json.obj [("bridge", Json.null)]) :=
  ⟨(network_settings_both_shapes _).2.1,
   (network_settings_both_shapes _).2.2.2.2.2⟩

/-- Witness for C10 at concrete values: a pointer to `0` keeps the key with
`0` in `ContainerJSONBase`, while a plain `0` drops it in `Container` (and a
non-zero plain value keeps it). -/
theorem size_fields_pointer_vs_plain_witness :
    jlookup "SizeRw" (jmembers (encodeContainerJSONBase
      ⟨"cid", "", "", [], none, "", "", "", "", "", none, "", 0, "", "", "",
       "", [], none, ⟨"", []⟩, some 0, none⟩)) = some (Json.num 0) ∧
    jlookup "SizeRootFs" (jmembers (encodeContainerJSONBase
      ⟨"cid", "", "", [], none, "", "", "", "", "", none, "", 0, "", "", "",
       "", [], none, ⟨"", []⟩, some 0, none⟩)) = none ∧
    jlookup "SizeRw" (jmembers (encodeContainer
      ⟨"cid", [], "", "", "", 0, [], 0, 7, [], "", "", ⟨""⟩, none, []⟩)) =
      none ∧
    jlookup "SizeRootFs" (jmembers (encodeContainer
      ⟨"cid", [], "", "", "", 0, [], 0, 7, [], "", "", ⟨""⟩, none, []⟩)) =
      some (Json.num 7) :=
  ⟨(size_fields_pointer_vs_plain.1 _).1, (size_fields_pointer_vs_plain.1 _).2,
   (size_fields_pointer_vs_plain.2 _).1, (size_fields_pointer_vs_plain.2 _).2⟩
